import Mathlib

/-!
Verification development for the component registry / dispatch core of the
menu utility (files menu/utils.py, menu/menu.py, menu/parser.py and the
component modules under menu/components/).

The Python source is shallowly embedded: pure computations become Lean
functions, the on-disk cache directory becomes an explicit association list
from file names to file contents, and Python exceptions that a function may
raise or let escape are represented either by explicit outcome parameters
(for calls into the runtime whose success depends on the environment, such
as pickle.dump or importlib.import_module) or by an Except result (an
Except.error value models an exception escaping the function uncaught).
-/

namespace Menu

/-- Bytes of a file are modelled as a list of naturals (each a byte value). -/
abbrev Bytes : Type := List Nat

/-- Content of one cache file as seen by pickle.load when it is later read:
either a well-formed pickle of a component, a malformed non-empty pickle
(pickle.load raises pickle.UnpicklingError, a subclass of pickle.PickleError),
or an empty file (pickle.load raises EOFError, which is neither a
pickle.PickleError nor an IOError). -/
inductive FileData (α : Type) where
  | pickled (c : α)
  | badPickle
  | empty
deriving DecidableEq

/-- The cache directory: an association list from file name to file content.
A write for an existing name shadows the old entry, like overwriting a file. -/
abbrev FS (α : Type) : Type := List (String × FileData α)

/-- Look a file name up in the cache directory; models os.path.exists plus
reading the file when present. -/
def fsFind {α : Type} : FS α → String → Option (FileData α)
  | [], _ => none
  | (k, v) :: rest, k2 => if k2 = k then some v else fsFind rest k2

/-- Write (create or overwrite) a file in the cache directory. -/
def fsWrite {α : Type} (fs : FS α) (k : String) (v : FileData α) : FS α :=
  (k, v) :: fs

/-- Embedding of the Python expression module_name.replace with a one
character dot pattern and a one character underscore replacement, as used in
get_cached_component and cache_component (utils.py lines 105 and 124). -/
def pyReplaceDots (s : String) : String :=
  String.mk (s.data.map fun c => if c = '.' then '_' else c)

/-- Cache file name built in utils.py lines 104 to 105 and 123 to 124:
the module name with dots replaced by underscores, an underscore, the hex
digest of the module source bytes, and the extension. -/
def cacheFileName (module_name mhash : String) : String :=
  pyReplaceDots module_name ++ "_" ++ mhash ++ ".pkl"

/-- Embedding of get_module_hash (utils.py lines 42 to 46): the digest of the
exact bytes of the module source. The md5 hex digest itself is kept as a
function parameter md5hex throughout; its relevant property (a fixed length
32 hex string determined only by the bytes) is assumed where a claim needs
it. The file read is modelled by passing the source bytes directly. -/
def get_module_hash (md5hex : Bytes → String) (content : Bytes) : String :=
  md5hex content

/-- Second component of the pair returned by get_cached_component
(utils.py lines 95 to 116): the cached component on a hit, an error string
when loading the cache entry failed in a caught way, or nothing on a miss. -/
inductive CachedVal (α : Type) where
  | comp (c : α)
  | errMsg (s : String)
  | noneV
deriving DecidableEq

/-- Embedding of get_cached_component (utils.py lines 95 to 116).
The function computes the cache file name from the module name and the md5
hex digest of the module source bytes, checks whether that file exists, and
if so unpickles it. Result: the cache directory (unchanged: the function
only reads) paired with either the returned tuple or an escaping exception.
Branches: a well-formed entry returns the tuple of true and the component
(line 112); a malformed entry makes pickle.load raise
pickle.UnpicklingError, caught by the except clause on line 113, returning
the tuple of false and an error string (line 114); an empty entry makes
pickle.load raise EOFError, which is not a pickle.PickleError and not an
IOError, so it escapes the function uncaught (modelled as Except.error);
no entry returns the tuple of false and nothing (line 116). -/
def get_cached_component {α : Type} (md5hex : Bytes → String) (fs : FS α)
    (module_name : String) (content : Bytes) :
    FS α × Except String (Bool × CachedVal α) :=
  match fsFind fs (cacheFileName module_name (md5hex content)) with
  | some (FileData.pickled c) => (fs, Except.ok (true, CachedVal.comp c))
  | some FileData.badPickle =>
      (fs, Except.ok (false, CachedVal.errMsg
        ("Error loading cache for " ++ module_name)))
  | some FileData.empty =>
      (fs, Except.error
        ("EOFError: Ran out of input while loading cache for " ++ module_name))
  | none => (fs, Except.ok (false, CachedVal.noneV))

/-- Outcome of the runtime calls made by cache_component
(utils.py lines 119 to 133), determined by the environment:
ok means open and pickle.dump both succeed;
pickleErr means the file was opened (truncating it) and pickle.dump raised
pickle.PickleError, caught on line 131;
openIoErr means open itself raised IOError, caught on line 131, before any
file was created;
typeErr means the file was opened (truncating it) and pickle.dump raised
TypeError (as CPython does for unpicklable objects such as module objects),
which is not caught by the except clause on line 131 and escapes. -/
inductive StoreOutcome where
  | ok
  | pickleErr
  | openIoErr
  | typeErr
deriving DecidableEq

/-- Result of cache_component: the cache directory after the call, the
returned Bool (or an escaping exception), and the lines printed. -/
structure StoreResult (α : Type) where
  fs : FS α
  result : Except String Bool
  printed : List String

/-- Embedding of cache_component (utils.py lines 119 to 133). It computes
the same cache file name as get_cached_component, opens it for writing
(creating or truncating it) and pickles the component into it. On success
it prints an info line and returns true (lines 129 to 130); a caught
pickle.PickleError or IOError prints a warning and returns false
(lines 131 to 133), with the truncated file left behind when the failure
happened after the open; a TypeError from pickle.dump escapes uncaught,
also leaving the truncated file behind (the with block closes the file). -/
def cache_component {α : Type} (md5hex : Bytes → String) (fs : FS α)
    (module_name : String) (component : α) (content : Bytes)
    (outcome : StoreOutcome) : StoreResult α :=
  match outcome with
  | StoreOutcome.ok =>
      { fs := fsWrite fs (cacheFileName module_name (md5hex content))
                (FileData.pickled component)
        result := Except.ok true
        printed := ["[INFO] Component " ++ module_name ++ " cached successfully"] }
  | StoreOutcome.pickleErr =>
      { fs := fsWrite fs (cacheFileName module_name (md5hex content))
                FileData.empty
        result := Except.ok false
        printed := ["[WARNING] Failed to cache component " ++ module_name] }
  | StoreOutcome.openIoErr =>
      { fs := fs
        result := Except.ok false
        printed := ["[WARNING] Failed to cache component " ++ module_name] }
  | StoreOutcome.typeErr =>
      { fs := fsWrite fs (cacheFileName module_name (md5hex content))
                FileData.empty
        result := Except.error
          ("TypeError: cannot pickle object for " ++ module_name)
        printed := [] }

/-- Point at which a user interrupt (KeyboardInterrupt, not caught by the
except clause of cache_component, which names only pickle.PickleError and
IOError) stops an in-progress cache_component call:
before the open (no file touched), right after the open for writing (the
file exists but is empty, since opening with mode wb truncates), or in the
middle of pickle.dump (a non-empty but malformed file). -/
inductive StorePhase where
  | beforeOpen
  | afterOpen
  | midWrite
deriving DecidableEq

/-- Cache directory state left behind when cache_component
(utils.py lines 119 to 133) is interrupted at the given phase. The with
block closes the file on the way out, so whatever was written so far stays
on disk; there is no temporary file or atomic rename in the source. -/
def cache_component_interrupted {α : Type} (md5hex : Bytes → String)
    (fs : FS α) (module_name : String) (_component : α) (content : Bytes)
    (phase : StorePhase) : FS α :=
  match phase with
  | StorePhase.beforeOpen => fs
  | StorePhase.afterOpen =>
      fsWrite fs (cacheFileName module_name (md5hex content)) FileData.empty
  | StorePhase.midWrite =>
      fsWrite fs (cacheFileName module_name (md5hex content)) FileData.badPickle

/-- Shape of the module attribute named register_parser as inspected by
validate_component_module: whether the attribute value is callable and, when
callable, the number of parameters reported by inspect.signature. -/
structure PyAttr where
  isCallable : Bool
  arity : Nat
deriving DecidableEq

/-- Shape of an imported component module as far as
validate_component_module inspects it: the attribute named register_parser,
when present (hasattr on utils.py line 63). -/
structure PyModule where
  registerFn : Option PyAttr
deriving DecidableEq

/-- Outcome of the body of the try block of validate_component_module
(utils.py lines 56 to 82), determined by the environment: either the import
and the introspection succeed, yielding the module shape, or one of the
exception classes named in the except clauses on lines 84 to 92 is raised
(ImportError, AttributeError, TypeError, ValueError, each carrying its
message and formatted traceback as one string), or an exception of some
other class is raised. Python semantics: importing a module whose source
has invalid syntax raises SyntaxError, and module level code can raise any
class; SyntaxError is a subclass of Exception but not of ImportError,
AttributeError, TypeError or ValueError. -/
inductive ImportOutcome where
  | ok (m : PyModule)
  | importError (msg : String)
  | attributeError (msg : String)
  | typeError (msg : String)
  | valueError (msg : String)
  | otherError (msg : String)
deriving DecidableEq

/-- Result of validate_component_module: the tuple of true and the module
(line 82), the tuple of false and a reason string (lines 68, 72, 79, 86,
89, 92), or an exception escaping the function uncaught. -/
inductive ValidationOutcome where
  | valid (m : PyModule)
  | invalid (reason : String)
  | uncaught (e : String)
deriving DecidableEq

/-- Embedding of validate_component_module (utils.py lines 49 to 92).
On a successful import it checks, in order: the attribute named
register_parser exists (hasattr, lines 61 to 68), it is callable
(lines 71 to 72), and inspect.signature reports exactly one parameter
(lines 75 to 79); passing all three returns the valid module (line 82).
Each except clause turns its exception class into an invalid result with
the message built on lines 86, 89 and 92 (the formatted traceback that the
source appends is part of the carried message string here). An exception of
any other class, such as SyntaxError from a module whose source does not
parse, escapes uncaught. -/
def validate_component_module (outcome : ImportOutcome) (module_name : String) :
    ValidationOutcome :=
  match outcome with
  | ImportOutcome.ok m =>
      match m.registerFn with
      | none => ValidationOutcome.invalid
          ("Module " ++ module_name ++
            " is missing required attributes: register_parser")
      | some a =>
          if a.isCallable = false then
            ValidationOutcome.invalid
              ("Module " ++ module_name ++ ": register_parser is not callable")
          else if a.arity ≠ 1 then
            ValidationOutcome.invalid
              ("Module " ++ module_name ++
                ": register_parser must take exactly one argument (subparsers)")
          else ValidationOutcome.valid m
  | ImportOutcome.importError msg => ValidationOutcome.invalid
      ("Error importing module " ++ module_name ++ ": " ++ msg)
  | ImportOutcome.attributeError msg => ValidationOutcome.invalid
      ("Error validating module " ++ module_name ++ ": " ++ msg)
  | ImportOutcome.typeError msg => ValidationOutcome.invalid
      ("Invalid module signature " ++ module_name ++ ": " ++ msg)
  | ImportOutcome.valueError msg => ValidationOutcome.invalid
      ("Invalid module signature " ++ module_name ++ ": " ++ msg)
  | ImportOutcome.otherError msg => ValidationOutcome.uncaught msg

/-- Exception classes distinguished by the except ladder of main
(menu.py lines 47 to 73). KeyboardInterrupt derives from BaseException and
is caught first; the remaining clauses catch Exception subclasses, ending
in a catch-all for Exception itself, so every Exception subclass raised by
the body is caught by exactly one clause. -/
inductive ExnClass where
  | keyboardInterrupt
  | importError
  | attributeError
  | valueError
  | typeError
  | fileNotFoundError
  | permissionError
  | osError
  | otherExn
deriving DecidableEq

/-- Exit code produced by the except ladder of main (menu.py lines 47 to 73):
130 for KeyboardInterrupt (line 49), 1 for every other caught class. -/
def exnExit : ExnClass → Int
  | ExnClass.keyboardInterrupt => 130
  | _ => 1

/-- Line printed by the except ladder of main for each caught class
(menu.py lines 48, 51, 54, 57, 60, 63, 66, 69, 72), a category label
followed by the exception message. -/
def exnMessage : ExnClass → String → String
  | ExnClass.keyboardInterrupt, _ => "Operation interrupted by user."
  | ExnClass.importError, m => "Error importing module: " ++ m
  | ExnClass.attributeError, m => "Attribute error: " ++ m
  | ExnClass.valueError, m => "Value error: " ++ m
  | ExnClass.typeError, m => "Type error: " ++ m
  | ExnClass.fileNotFoundError, m => "File not found: " ++ m
  | ExnClass.permissionError, m => "Permission error: " ++ m
  | ExnClass.osError, m => "OS error: " ++ m
  | ExnClass.otherExn, m => "Unexpected error: " ++ m

/-- Outcome of the importlib.reload call on menu.py line 44, determined by
the environment: success, or an exception of the given class with the given
message. The reload sits inside the same try block as the entry call, so a
reload exception is handled by the except ladder of main. -/
inductive ReloadOutcome where
  | ok
  | fails (e : ExnClass) (msg : String)
deriving DecidableEq

/-- Outcome of the call args.func(args) on menu.py line 46, determined by
the selected entry function and the environment: a returned integer, or an
exception of the given class with the given message. -/
inductive EntryOutcome where
  | ret (n : Int)
  | raises (e : ExnClass) (msg : String)
deriving DecidableEq

/-- The parsed arguments object as main inspects it: whether a subcommand
bound an entry function (hasattr args func, menu.py line 33), the module
name of that entry function when it has one (menu.py lines 39 to 40), and
the environment-determined outcomes of the reload and of the entry call. -/
structure ArgsModel where
  hasFunc : Bool
  funcModule : Option String
  reload : ReloadOutcome
  entry : EntryOutcome
deriving DecidableEq

/-- Observable result of one run of main: the returned exit code, whether
the entry function was actually invoked, and the lines printed by main
itself (the info line before a reload, the usage help, and the except
ladder messages; output of the entry function itself is not included). -/
structure MainResult where
  exit : Int
  invoked : Bool
  printed : List String
deriving DecidableEq

/-- Info line printed on menu.py lines 42 to 43 before the reload. -/
def reloadInfoLine (m : String) : String :=
  "[INFO] Reloading module " ++ m ++ " before execution"

/-- Evaluation of the call args.func(args) on menu.py line 46 under the
except ladder: a returned integer passes through unchanged; a raised
exception is mapped to its exit code and its printed category message. -/
def runEntry (pre : List String) (entry : EntryOutcome) : MainResult :=
  match entry with
  | EntryOutcome.ret n => { exit := n, invoked := true, printed := pre }
  | EntryOutcome.raises e msg =>
      { exit := exnExit e, invoked := true,
        printed := pre ++ [exnMessage e msg] }

/-- Embedding of main (menu.py lines 25 to 73) from the point where the
arguments are parsed. If the parsed arguments carry no entry function, main
prints the help and returns 1 (lines 33 to 35). Otherwise, inside the try
block, when the entry function belongs to a module whose name starts with
the components package name, main prints an info line and calls
importlib.reload (lines 38 to 44); an exception from the reload is caught
by the except ladder and main returns its mapped exit code without ever
calling the entry function. When the reload succeeds, or no reload is
attempted, main calls args.func(args) (line 46) and maps its outcome
through the same ladder. -/
def main (a : ArgsModel) : MainResult :=
  if a.hasFunc = false then
    { exit := 1, invoked := false, printed := ["<parser help text>"] }
  else
    match a.funcModule with
    | some m =>
        if ("menu.components.".data).isPrefixOf m.data then
          match a.reload with
          | ReloadOutcome.ok => runEntry [reloadInfoLine m] a.entry
          | ReloadOutcome.fails e msg =>
              { exit := exnExit e, invoked := false,
                printed := [reloadInfoLine m, exnMessage e msg] }
        else runEntry [] a.entry
    | none => runEntry [] a.entry

/-- Command line input shapes relevant to the claims: an invocation with no
subcommand, an invocation with a flag the parser does not recognize, and an
invocation whose parse succeeded yielding an arguments object. -/
inductive CLIInput where
  | noCommand
  | unknownFlag (flagname : String)
  | withArgs (a : ArgsModel)

/-- Embedding of one whole program run, sys.exit(main()) (menu.py line 77),
over the parse performed by create_parser and parser.parse_args
(menu.py lines 30 to 31, parser.py lines 7 to 20). With no subcommand the
parse succeeds, the namespace has no func attribute, and main prints the
help and returns 1. With an unrecognized flag, Python argparse semantics
apply: parse_args prints the usage and an error line and raises
SystemExit(2); the raise happens on menu.py line 31, before the try block,
so the process exits with code 2 and main never reaches its dispatch
logic. Otherwise the run is main on the parsed arguments. -/
def runProgram : CLIInput → MainResult
  | CLIInput.noCommand =>
      main { hasFunc := false, funcModule := none,
             reload := ReloadOutcome.ok, entry := EntryOutcome.ret 0 }
  | CLIInput.unknownFlag f =>
      { exit := 2, invoked := false,
        printed := ["<parser usage text>",
          "error: unrecognized arguments: " ++ f] }
  | CLIInput.withArgs a => main a

/-- Decimal digit value of a character, if it is a digit. -/
def decDigitVal (c : Char) : Option Nat :=
  if '0' ≤ c ∧ c ≤ '9' then some (c.toNat - '0'.toNat) else none

/-- Decimal reading of a list of characters, if every character is a digit
and the list is non-empty. -/
def decReadAux : List Char → Nat → Option Nat
  | [], acc => some acc
  | c :: cs, acc =>
      match decDigitVal c with
      | some d => decReadAux cs (acc * 10 + d)
      | none => none

/-- Embedding of the int conversion argparse applies to a flag value
declared with an int type: the decimal integer, with an optional leading
minus sign, or nothing when the text is not an integer (argparse then
errors out; the claims only exercise well formed integer values). -/
def pyParseInt (s : String) : Option Int :=
  match s.data with
  | [] => none
  | '-' :: rest =>
      match rest with
      | [] => none
      | _ => (decReadAux rest 0).map (fun n => -(n : Int))
  | l => (decReadAux l 0).map (fun n => (n : Int))

/-- Integer flag conversion with the registered default kept when the text
is not an integer (that path is never exercised by the claims). -/
def pyIntFlag (s : String) (dflt : Int) : Int :=
  (pyParseInt s).getD dflt

/-- Embedding of the bool conversion argparse applies to a flag value
declared with a bool type: Python bool of a string is true exactly when the
string is non-empty. -/
def pyBoolFlag (s : String) : Bool :=
  !(s.data.isEmpty)

/-- The parsed argument namespace for the studio subcommand, one field per
add_argument call in register_parser of menu/components/studio.py
(lines 87 to 126). -/
structure StudioArgs where
  host : String
  port : Int
  database_uri : String
  log_level : String
  storage_path : String
  enable_cache : Bool
  cache_dir : String
  cache_seed : Int
  num_workers : Int
  request_timeout : Int
  model_cache_size : Int
  database_pool_size : Int
  database_pool_recycle : Int
  max_file_size : Int
  max_nodes : Int
  max_edges : Int
  static_root_path : String
  file_logging : Bool
  log_file : String
  file_log_level : String
deriving DecidableEq

/-- Registered defaults of the studio subcommand, one per add_argument call
in register_parser of menu/components/studio.py (lines 87 to 126). -/
def studioDefaults : StudioArgs :=
  { host := "0.0.0.0"
    port := 8081
    database_uri := "sqlite:///./autogenstudio.db"
    log_level := "INFO"
    storage_path := "./autogenstudio_storage"
    enable_cache := true
    cache_dir := ".autogenstudio_cache"
    cache_seed := 42
    num_workers := 4
    request_timeout := 300
    model_cache_size := 5
    database_pool_size := 20
    database_pool_recycle := 3600
    max_file_size := 10485760
    max_nodes := 50
    max_edges := 200
    static_root_path := "./static"
    file_logging := true
    log_file := "autogenstudio.log"
    file_log_level := "DEBUG" }

/-- One provided flag and value pair applied to the studio namespace,
following the types declared in register_parser of
menu/components/studio.py: int typed flags go through the int conversion,
bool typed flags through the bool conversion, the rest are strings. An
unknown flag would make argparse error out before reaching here. -/
def applyStudioFlag (a : StudioArgs) (fv : String × String) : StudioArgs :=
  match fv.1 with
  | "--host" => { a with host := fv.2 }
  | "--port" => { a with port := pyIntFlag fv.2 a.port }
  | "--database_uri" => { a with database_uri := fv.2 }
  | "--log_level" => { a with log_level := fv.2 }
  | "--storage_path" => { a with storage_path := fv.2 }
  | "--enable_cache" => { a with enable_cache := pyBoolFlag fv.2 }
  | "--cache_dir" => { a with cache_dir := fv.2 }
  | "--cache_seed" => { a with cache_seed := pyIntFlag fv.2 a.cache_seed }
  | "--num_workers" => { a with num_workers := pyIntFlag fv.2 a.num_workers }
  | "--request_timeout" =>
      { a with request_timeout := pyIntFlag fv.2 a.request_timeout }
  | "--model_cache_size" =>
      { a with model_cache_size := pyIntFlag fv.2 a.model_cache_size }
  | "--database_pool_size" =>
      { a with database_pool_size := pyIntFlag fv.2 a.database_pool_size }
  | "--database_pool_recycle" =>
      { a with database_pool_recycle := pyIntFlag fv.2 a.database_pool_recycle }
  | "--max_file_size" =>
      { a with max_file_size := pyIntFlag fv.2 a.max_file_size }
  | "--max_nodes" => { a with max_nodes := pyIntFlag fv.2 a.max_nodes }
  | "--max_edges" => { a with max_edges := pyIntFlag fv.2 a.max_edges }
  | "--static_root_path" => { a with static_root_path := fv.2 }
  | "--file_logging" => { a with file_logging := pyBoolFlag fv.2 }
  | "--log_file" => { a with log_file := fv.2 }
  | "--file_log_level" => { a with file_log_level := fv.2 }
  | _ => a

/-- Parse of the flags given after the studio subcommand: start from the
registered defaults and apply each provided flag and value pair in order,
as argparse does. -/
def parseStudio (flags : List (String × String)) : StudioArgs :=
  flags.foldl applyStudioFlag studioDefaults

/-- Hex digit character for a value below sixteen, lower case: values below
ten map into the decimal digit characters, the rest into the letters from
the character a onward. -/
def hexDigit (n : Nat) : Char :=
  if n < 10 then Char.ofNat ('0'.toNat + n) else Char.ofNat ('a'.toNat + n - 10)

/-- Concrete stand-in for the md5 hex digest used by get_module_hash: an
executable function from byte lists to 32 character lower case hex strings.
It shares with the real digest the properties the development relies on:
it is a pure function of the bytes and its output always has length 32.
It is used to instantiate witnesses; the claims themselves are stated over
an arbitrary digest function. -/
def md5Model (b : Bytes) : String :=
  String.mk ((List.range 32).map
    (fun i =>
      hexDigit
        ((b.foldl (fun acc x => (acc * 256 + x % 256 + 1) % 16 ^ 32) 0) /
            16 ^ (31 - i) % 16)))

/-- The model digest always has length 32, like an md5 hex digest. -/
theorem md5Model_length (b : Bytes) : (md5Model b).length = 32 := by
  simp [md5Model, String.length]

/-- Looking up the key just written finds the written content. -/
theorem fsFind_write_self {α : Type} (fs : FS α) (k : String) (v : FileData α) :
    fsFind (fsWrite fs k v) k = some v := by
  simp [fsFind, fsWrite]

/-- Looking up a different key is unaffected by a write. -/
theorem fsFind_write_other {α : Type} (fs : FS α) (k k2 : String)
    (v : FileData α) (h : k2 ≠ k) :
    fsFind (fsWrite fs k v) k2 = fsFind fs k2 := by
  simp [fsFind, fsWrite, h]

/-- For one module name, the cache file name determines the digest. -/
theorem cacheFileName_hash_inj (n h1 h2 : String)
    (he : cacheFileName n h1 = cacheFileName n h2) : h1 = h2 := by
  have hd := congrArg String.data he
  simp only [cacheFileName, String.data_append] at hd
  exact String.ext (List.append_cancel_left (List.append_cancel_right hd))

/-- When the two digests have equal length, equal cache file names force
both the replaced module names and the digests to agree. -/
theorem cacheFileName_inj (n1 n2 h1 h2 : String)
    (hl : h1.length = h2.length)
    (he : cacheFileName n1 h1 = cacheFileName n2 h2) :
    pyReplaceDots n1 = pyReplaceDots n2 ∧ h1 = h2 := by
  have hd := congrArg String.data he
  simp only [cacheFileName, String.data_append, List.append_assoc] at hd
  have hdl : h1.data.length = h2.data.length := hl
  have hlen : ("_".data ++ (h1.data ++ ".pkl".data)).length
      = ("_".data ++ (h2.data ++ ".pkl".data)).length := by
    simp [List.length_append, hdl]
  have hp := List.append_inj' hd hlen
  refine ⟨String.ext hp.1, ?_⟩
  have h5 := List.append_cancel_left hp.2
  exact String.ext (List.append_cancel_right h5)

/-- When the arguments carry an entry function and the reload step raises
nothing, main reduces to the evaluation of the entry call after some
preliminary printed lines. -/
theorem main_entry_eq (fm : Option String) (r : ReloadOutcome)
    (entry : EntryOutcome) (hr : r = ReloadOutcome.ok) :
    ∃ pre, main { hasFunc := true, funcModule := fm, reload := r,
                  entry := entry } = runEntry pre entry := by
  subst hr
  cases fm with
  | none => exact ⟨[], rfl⟩
  | some m =>
      by_cases h : ("menu.components.".data).isPrefixOf m.data = true
      · exact ⟨[reloadInfoLine m], by simp [main, h]⟩
      · exact ⟨[], by simp [main, h]⟩

/-- Claim C1. Content-addressed cache round trip: after a successful store
of a descriptor under a module identifier and source bytes, a lookup with
the same identifier and unchanged bytes returns exactly that descriptor
with the found flag true (a hit), while a lookup with changed bytes, whose
digest differs and for which no entry already exists, returns the found
flag false and nothing (a miss). Stated over an arbitrary digest function;
the claim that any one byte change misses holds up to collision freedom of
the digest, assumed as the hypothesis that the two digests differ. -/
theorem cache_round_trip {α : Type} (md5hex : Bytes → String) (fs : FS α)
    (name : String) (c : α) (b b2 : Bytes)
    (hfresh : fsFind fs (cacheFileName name (md5hex b2)) = none)
    (hne : md5hex b2 ≠ md5hex b) :
    (get_cached_component md5hex
        (cache_component md5hex fs name c b StoreOutcome.ok).fs name b).2
      = Except.ok (true, CachedVal.comp c) ∧
    (get_cached_component md5hex
        (cache_component md5hex fs name c b StoreOutcome.ok).fs name b2).2
      = Except.ok (false, CachedVal.noneV) := by
  have hkey : cacheFileName name (md5hex b2) ≠ cacheFileName name (md5hex b) :=
    fun h => hne (cacheFileName_hash_inj name _ _ h)
  constructor
  · simp [get_cached_component, cache_component, fsFind_write_self]
  · simp [get_cached_component, cache_component,
      fsFind_write_other _ _ _ _ hkey, hfresh]

/-- Witness for claim C1 at a concrete instance: the empty cache directory,
module name menu.components.studio, source bytes a single zero byte, and
changed bytes a single one byte. -/
theorem cache_round_trip_witness :
    (get_cached_component md5Model
        (cache_component md5Model ([] : FS Nat) "menu.components.studio"
          7 [0] StoreOutcome.ok).fs "menu.components.studio" [0]).2
      = Except.ok (true, CachedVal.comp 7) ∧
    (get_cached_component md5Model
        (cache_component md5Model ([] : FS Nat) "menu.components.studio"
          7 [0] StoreOutcome.ok).fs "menu.components.studio" [1]).2
      = Except.ok (false, CachedVal.noneV) :=
  cache_round_trip md5Model [] "menu.components.studio" 7 [0] [1]
    rfl (by decide)

/-- Claim C7, counterexample. The cache key does not separate every pair of
distinct module identifiers: the identifiers a.b and a_b are distinct, yet
they map to the same cache file name because dots are replaced by
underscores, and a lookup for a.b returns the descriptor that was stored
under a_b when both have the same source bytes. -/
theorem cache_key_collision :
    ("a.b" : String) ≠ "a_b" ∧
    cacheFileName "a.b" (md5Model [7]) = cacheFileName "a_b" (md5Model [7]) ∧
    (get_cached_component md5Model
        (cache_component md5Model ([] : FS Nat) "a_b" 42 [7]
          StoreOutcome.ok).fs "a.b" [7]).2
      = Except.ok (true, CachedVal.comp 42) :=
  ⟨by decide, rfl, rfl⟩

/-- Claim C7, amended. The cache key combines the module identifier, with
dots replaced by underscores, and the content digest; entries of two module
identifiers never collide provided the identifiers remain distinct after
that replacement (and the digest has its fixed length 32): a store under
one such identifier leaves every lookup for the other unchanged. -/
theorem cache_key_separation {α : Type} (md5hex : Bytes → String)
    (fs : FS α) (n1 n2 : String) (c : α) (b1 b2 : Bytes)
    (hlen : ∀ x, (md5hex x).length = 32)
    (hnames : pyReplaceDots n1 ≠ pyReplaceDots n2) :
    (get_cached_component md5hex
        (cache_component md5hex fs n2 c b2 StoreOutcome.ok).fs n1 b1).2
      = (get_cached_component md5hex fs n1 b1).2 := by
  have hkey : cacheFileName n1 (md5hex b1) ≠ cacheFileName n2 (md5hex b2) :=
    fun h => hnames (cacheFileName_inj n1 n2 _ _ (by rw [hlen, hlen]) h).1
  simp only [get_cached_component, cache_component]
  rw [fsFind_write_other _ _ _ _ hkey]
  cases fsFind fs (cacheFileName n1 (md5hex b1)) with
  | none => rfl
  | some v => cases v <;> rfl

/-- Witness for the amended claim C7 at a concrete instance: the module
names a.b and a.c stay distinct after replacement, so a store under a.c
does not affect a lookup for a.b. -/
theorem cache_key_separation_witness :
    (get_cached_component md5Model
        (cache_component md5Model ([] : FS Nat) "a.c" 42 [7]
          StoreOutcome.ok).fs "a.b" [7]).2
      = (get_cached_component md5Model ([] : FS Nat) "a.b" [7]).2 :=
  cache_key_separation md5Model [] "a.b" "a.c" 42 [7] [7]
    md5Model_length (by decide)

/-- Claim C8, counterexample. Cache errors can be fatal: a store whose
pickling fails with TypeError (the CPython behavior for unpicklable objects
such as module objects) lets that exception escape cache_component
uncaught; and a store whose pickling fails with a caught error leaves an
empty truncated file behind, so the very next lookup for the same key
raises EOFError from pickle.load, which the except clause of
get_cached_component (naming only pickle.PickleError and IOError) does not
catch, an uncaught error rather than a cache miss. -/
theorem cache_error_escapes :
    (cache_component md5Model ([] : FS Nat) "m" 0 [0]
        StoreOutcome.typeErr).result
      = Except.error "TypeError: cannot pickle object for m" ∧
    (cache_component md5Model ([] : FS Nat) "m" 0 [0]
        StoreOutcome.pickleErr).result = Except.ok false ∧
    (get_cached_component md5Model
        (cache_component md5Model ([] : FS Nat) "m" 0 [0]
          StoreOutcome.pickleErr).fs "m" [0]).2
      = Except.error "EOFError: Ran out of input while loading cache for m" :=
  ⟨rfl, rfl, rfl⟩

/-- Claim C8, amended. For the exception classes the source actually
catches, the claim holds: a store failing with pickle.PickleError or with
IOError returns false and prints a warning rather than raising, and a
lookup that finds a malformed non-empty entry (pickle.UnpicklingError, a
caught class) returns the found flag false, exactly like a miss, with an
error string, never an escaping exception. Failures outside the caught
classes (TypeError while pickling, EOFError while unpickling an empty
file) escape uncaught. -/
theorem cache_errors_nonfatal_amended {α : Type} (md5hex : Bytes → String)
    (fs : FS α) (name : String) (c : α) (b : Bytes) :
    (cache_component md5hex fs name c b StoreOutcome.pickleErr).result
      = Except.ok false ∧
    (cache_component md5hex fs name c b StoreOutcome.pickleErr).printed ≠ [] ∧
    (cache_component md5hex fs name c b StoreOutcome.openIoErr).result
      = Except.ok false ∧
    (cache_component md5hex fs name c b StoreOutcome.openIoErr).fs = fs ∧
    (get_cached_component md5hex
        (fsWrite fs (cacheFileName name (md5hex b)) FileData.badPickle)
        name b).2
      = Except.ok (false, CachedVal.errMsg
          ("Error loading cache for " ++ name)) := by
  refine ⟨rfl, by simp [cache_component], rfl, rfl, ?_⟩
  simp [get_cached_component, fsFind_write_self]

/-- Claim C9, counterexample. A store interrupted right after the file was
opened for writing leaves a half-written (here empty, since opening with
mode wb truncates) cache file on disk for its key: the file is visible to a
subsequent lookup (it exists) and is not the completed entry. The source
writes the final file directly, with no temporary file or atomic rename. -/
theorem store_interrupt_leaves_file :
    (fsFind (cache_component_interrupted md5Model ([] : FS Nat) "m" 0 [0]
        StorePhase.afterOpen) (cacheFileName "m" (md5Model [0]))).isSome
      = true ∧
    fsFind (cache_component_interrupted md5Model ([] : FS Nat) "m" 0 [0]
        StorePhase.afterOpen) (cacheFileName "m" (md5Model [0]))
      ≠ some (FileData.pickled 0) :=
  ⟨rfl, by decide⟩

/-- Claim C9, amended. A store interrupted at any point never results in a
subsequent lookup for its key returning a descriptor, provided no entry for
that key existed before: an interrupt before the open leaves no file (the
lookup misses); after the open the file is empty (the lookup raises an
uncaught EOFError); in the middle of the write the file is malformed (the
lookup reports a caught error with the found flag false). A half-written
file can thus be left visible, but no corrupt descriptor is ever served. -/
theorem store_interrupt_no_descriptor {α : Type} (md5hex : Bytes → String)
    (fs : FS α) (name : String) (c : α) (b : Bytes) (phase : StorePhase)
    (hfresh : fsFind fs (cacheFileName name (md5hex b)) = none) :
    ∀ x : α,
      (get_cached_component md5hex
          (cache_component_interrupted md5hex fs name c b phase) name b).2
        ≠ Except.ok (true, CachedVal.comp x) := by
  intro x
  cases phase with
  | beforeOpen => simp [get_cached_component, cache_component_interrupted, hfresh]
  | afterOpen =>
      simp [get_cached_component, cache_component_interrupted, fsFind_write_self]
  | midWrite =>
      simp [get_cached_component, cache_component_interrupted, fsFind_write_self]

/-- Witness for the amended claim C9 at a concrete instance: the empty
cache directory and an interrupt in the middle of the write. -/
theorem store_interrupt_no_descriptor_witness :
    (get_cached_component md5Model
        (cache_component_interrupted md5Model ([] : FS Nat) "m" 0 [0]
          StorePhase.midWrite) "m" [0]).2
      ≠ Except.ok (true, CachedVal.comp 5) :=
  store_interrupt_no_descriptor md5Model [] "m" 0 [0]
    StorePhase.midWrite rfl 5

/-- Claim C10. A cache lookup is read-only: get_cached_component returns
the cache directory unchanged whatever it finds, whether the lookup hits,
misses or encounters a corrupt entry; the source only reads the cache file
and never creates, modifies or deletes one. -/
theorem lookup_read_only {α : Type} (md5hex : Bytes → String) (fs : FS α)
    (name : String) (b : Bytes) :
    (get_cached_component md5hex fs name b).1 = fs := by
  cases h : fsFind fs (cacheFileName name (md5hex b)) with
  | none => simp [get_cached_component, h]
  | some v => cases v <;> simp [get_cached_component, h]

/-- Claim C2, counterexample. The validator does not contain every load
failure: a module whose source has invalid syntax makes the import raise
SyntaxError, which is not an ImportError (nor an AttributeError, TypeError
or ValueError), so it is caught by none of the except clauses of
validate_component_module and escapes uncaught instead of yielding an
invalid result with a reason. -/
theorem validator_syntax_error_escapes :
    validate_component_module
        (ImportOutcome.otherError "SyntaxError: invalid syntax")
        "menu.components.broken"
      = ValidationOutcome.uncaught "SyntaxError: invalid syntax" ∧
    ¬ ∃ r, validate_component_module
        (ImportOutcome.otherError "SyntaxError: invalid syntax")
        "menu.components.broken" = ValidationOutcome.invalid r := by
  refine ⟨rfl, ?_⟩
  rintro ⟨r, h⟩
  simp [validate_component_module] at h

/-- Claim C2, amended. For every module identifier, the validator returns
the valid module exactly when the import succeeds and the module exposes a
callable register_parser attribute taking exactly one parameter; a load or
introspection failure raised as ImportError, AttributeError, TypeError or
ValueError yields an invalid result whose reason distinguishes load
failure (prefixed with Error importing module) from the shape failures;
but a failure of any other exception class, such as a SyntaxError from a
module whose source does not parse, escapes uncaught. -/
theorem validator_totality_amended (name msg : String) (m : PyModule) :
    (validate_component_module (ImportOutcome.ok m) name
        = ValidationOutcome.valid m
      ↔ m.registerFn = some { isCallable := true, arity := 1 }) ∧
    validate_component_module (ImportOutcome.importError msg) name
      = ValidationOutcome.invalid
          ("Error importing module " ++ name ++ ": " ++ msg) ∧
    validate_component_module (ImportOutcome.attributeError msg) name
      = ValidationOutcome.invalid
          ("Error validating module " ++ name ++ ": " ++ msg) ∧
    validate_component_module (ImportOutcome.typeError msg) name
      = ValidationOutcome.invalid
          ("Invalid module signature " ++ name ++ ": " ++ msg) ∧
    validate_component_module (ImportOutcome.valueError msg) name
      = ValidationOutcome.invalid
          ("Invalid module signature " ++ name ++ ": " ++ msg) ∧
    validate_component_module (ImportOutcome.otherError msg) name
      = ValidationOutcome.uncaught msg := by
  refine ⟨?_, rfl, rfl, rfl, rfl, rfl⟩
  rcases m with ⟨_ | ⟨ic, ar⟩⟩
  · simp [validate_component_module]
  · by_cases hic : ic = false
    · subst hic; simp [validate_component_module]
    · have hic2 : ic = true := by
        cases ic
        · exact absurd rfl hic
        · rfl
      subst hic2
      by_cases har : ar = 1
      · subst har; simp [validate_component_module]
      · simp [validate_component_module, har]

/-- Witness for the amended claim C2 at a concrete instance: a module
exposing a callable one parameter register_parser attribute validates, and
each caught failure class yields its invalid reason. -/
theorem validator_totality_amended_witness :
    (validate_component_module
        (ImportOutcome.ok { registerFn := some { isCallable := true, arity := 1 } })
        "menu.components.studio"
      = ValidationOutcome.valid
          { registerFn := some { isCallable := true, arity := 1 } }
      ↔ (some { isCallable := true, arity := 1 } : Option PyAttr)
          = some { isCallable := true, arity := 1 }) ∧
    validate_component_module (ImportOutcome.importError "No module named x")
        "menu.components.studio"
      = ValidationOutcome.invalid
          ("Error importing module menu.components.studio: No module named x") ∧
    validate_component_module (ImportOutcome.attributeError "No module named x")
        "menu.components.studio"
      = ValidationOutcome.invalid
          ("Error validating module menu.components.studio: No module named x") ∧
    validate_component_module (ImportOutcome.typeError "No module named x")
        "menu.components.studio"
      = ValidationOutcome.invalid
          ("Invalid module signature menu.components.studio: No module named x") ∧
    validate_component_module (ImportOutcome.valueError "No module named x")
        "menu.components.studio"
      = ValidationOutcome.invalid
          ("Invalid module signature menu.components.studio: No module named x") ∧
    validate_component_module (ImportOutcome.otherError "No module named x")
        "menu.components.studio"
      = ValidationOutcome.uncaught "No module named x" :=
  validator_totality_amended "menu.components.studio" "No module named x"
    { registerFn := some { isCallable := true, arity := 1 } }

/-- Claim C3. Dispatch failure containment: when the selected command's
entry function is reached (reload raised nothing), main returns the entry
function's integer unchanged when it returns; returns 130 when a
KeyboardInterrupt is raised during execution; and for every caught failure
class (import, attribute, value, type, file, permission, OS level, or any
other Exception) main prints that category's labeled message and returns
exit code 1 instead of letting the process crash. -/
theorem dispatch_exit_mapping (fm : Option String) (n : Int) (msg : String) :
    (main { hasFunc := true, funcModule := fm, reload := ReloadOutcome.ok,
            entry := EntryOutcome.ret n }).exit = n ∧
    (main { hasFunc := true, funcModule := fm, reload := ReloadOutcome.ok,
            entry := EntryOutcome.ret n }).invoked = true ∧
    (main { hasFunc := true, funcModule := fm, reload := ReloadOutcome.ok,
            entry := EntryOutcome.raises ExnClass.keyboardInterrupt msg }).exit
      = 130 ∧
    (∀ e : ExnClass, e ≠ ExnClass.keyboardInterrupt →
      (main { hasFunc := true, funcModule := fm, reload := ReloadOutcome.ok,
              entry := EntryOutcome.raises e msg }).exit = 1) ∧
    (∀ e : ExnClass,
      exnMessage e msg ∈
        (main { hasFunc := true, funcModule := fm, reload := ReloadOutcome.ok,
                entry := EntryOutcome.raises e msg }).printed) := by
  refine ⟨?_, ?_, ?_, ?_, ?_⟩
  · obtain ⟨pre, hp⟩ := main_entry_eq fm _ (EntryOutcome.ret n) rfl
    rw [hp]; rfl
  · obtain ⟨pre, hp⟩ := main_entry_eq fm _ (EntryOutcome.ret n) rfl
    rw [hp]; rfl
  · obtain ⟨pre, hp⟩ := main_entry_eq fm _
      (EntryOutcome.raises ExnClass.keyboardInterrupt msg) rfl
    rw [hp]; rfl
  · intro e he
    obtain ⟨pre, hp⟩ := main_entry_eq fm _ (EntryOutcome.raises e msg) rfl
    rw [hp]
    cases e
    · exact absurd rfl he
    all_goals rfl
  · intro e
    obtain ⟨pre, hp⟩ := main_entry_eq fm _ (EntryOutcome.raises e msg) rfl
    rw [hp]
    simp [runEntry]

/-- Witness for claim C3 at a concrete instance: the studio module, entry
returning 7, and a ValueError with a concrete message. -/
theorem dispatch_exit_mapping_witness :
    (main { hasFunc := true, funcModule := some "menu.components.studio",
            reload := ReloadOutcome.ok,
            entry := EntryOutcome.ret 7 }).exit = 7 ∧
    (main { hasFunc := true, funcModule := some "menu.components.studio",
            reload := ReloadOutcome.ok,
            entry := EntryOutcome.raises ExnClass.valueError "bad value" }).exit
      = 1 ∧
    exnMessage ExnClass.valueError "bad value" ∈
      (main { hasFunc := true, funcModule := some "menu.components.studio",
              reload := ReloadOutcome.ok,
              entry := EntryOutcome.raises ExnClass.valueError
                "bad value" }).printed :=
  ⟨(dispatch_exit_mapping (some "menu.components.studio") 7 "bad value").1,
   (dispatch_exit_mapping (some "menu.components.studio") 7 "bad value").2.2.2.1
     ExnClass.valueError (by decide),
   (dispatch_exit_mapping (some "menu.components.studio") 7 "bad value").2.2.2.2
     ExnClass.valueError⟩

/-- Claim C4, counterexample. A failed pre-invocation reload is fatal, not
best-effort: with the studio command selected and the reload raising an
ImportError, main returns exit code 1 and the entry function is never
invoked, because the reload sits inside the same try block as the entry
call and its exception jumps straight to the except ladder. -/
theorem reload_failure_aborts :
    (main { hasFunc := true, funcModule := some "menu.components.studio",
            reload := ReloadOutcome.fails ExnClass.importError
              "cannot reload studio",
            entry := EntryOutcome.ret 0 }).invoked = false ∧
    (main { hasFunc := true, funcModule := some "menu.components.studio",
            reload := ReloadOutcome.fails ExnClass.importError
              "cannot reload studio",
            entry := EntryOutcome.ret 0 }).exit = 1 :=
  ⟨rfl, rfl⟩

/-- Claim C4, amended. When the forced pre-invocation reload of the
selected command's component module fails, main does not proceed to the
entry function: the exception is caught by the top level except ladder,
the category message is printed after the reload info line, and main
returns that category's exit code (1, or 130 for an interrupt) with the
entry function never invoked. -/
theorem reload_failure_fatal (m msg : String) (e : ExnClass)
    (entry : EntryOutcome)
    (h : ("menu.components.".data).isPrefixOf m.data = true) :
    main { hasFunc := true, funcModule := some m,
           reload := ReloadOutcome.fails e msg, entry := entry }
      = { exit := exnExit e, invoked := false,
          printed := [reloadInfoLine m, exnMessage e msg] } := by
  simp [main, h]

/-- Witness for the amended claim C4 at a concrete instance: the studio
module, a failing reload with an ImportError, and an entry that would have
returned 0. -/
theorem reload_failure_fatal_witness :
    main { hasFunc := true, funcModule := some "menu.components.studio",
           reload := ReloadOutcome.fails ExnClass.importError "boom",
           entry := EntryOutcome.ret 0 }
      = { exit := 1, invoked := false,
          printed := [reloadInfoLine "menu.components.studio",
            exnMessage ExnClass.importError "boom"] } :=
  reload_failure_fatal "menu.components.studio" "boom"
    ExnClass.importError (EntryOutcome.ret 0) (by decide)

/-- Claim C5, counterexample. An invocation with an unrecognized flag does
not exit with code 1: argparse prints the usage and raises SystemExit with
code 2 from parse_args, before the dispatch logic of main runs, so the
process exit code is 2. -/
theorem unknown_flag_exit_two :
    (runProgram (CLIInput.unknownFlag "--bogus")).exit = 2 ∧
    (runProgram (CLIInput.unknownFlag "--bogus")).exit ≠ 1 :=
  ⟨rfl, by decide⟩

/-- Claim C5, amended. An invocation with no command prints the help and
exits with code 1; an invocation with an unrecognized flag prints the
usage and an error line and exits with code 2 (the argparse convention),
not 1. -/
theorem cli_failure_exit_codes (f : String) :
    (runProgram CLIInput.noCommand).exit = 1 ∧
    (runProgram CLIInput.noCommand).printed ≠ [] ∧
    (runProgram (CLIInput.unknownFlag f)).exit = 2 ∧
    (runProgram (CLIInput.unknownFlag f)).printed ≠ [] := by
  refine ⟨rfl, ?_, rfl, ?_⟩
  · simp [runProgram, main]
  · simp [runProgram]

/-- Claim C6. Entry point pass-through for the studio command: parsing the
flag list with only the port flag set to 9999 yields the parsed arguments
equal to the registered defaults except that the port equals 9999, and
dispatching the studio command (its entry function belonging to the module
menu.components.studio, reload raising nothing) returns exactly the
integer the entry function returns, unchanged, with the entry function
invoked. -/
theorem studio_port_passthrough (n : Int) :
    parseStudio [("--port", "9999")]
      = { studioDefaults with port := 9999 } ∧
    (main { hasFunc := true, funcModule := some "menu.components.studio",
            reload := ReloadOutcome.ok,
            entry := EntryOutcome.ret n }).exit = n ∧
    (main { hasFunc := true, funcModule := some "menu.components.studio",
            reload := ReloadOutcome.ok,
            entry := EntryOutcome.ret n }).invoked = true :=
  ⟨rfl, rfl, rfl⟩

end Menu
